import Mathlib

set_option maxRecDepth 100000

/-!
Verification development for the research-orchestration pipeline of the
noboox repository.  The definitions below are a shallow embedding of the
TypeScript code in `src/app/api/research/route.ts`, `src/app/api/cipher/route.ts`
and the historical variant of the research route (the file with the
range-expanding citation handling).  JavaScript strings are modelled as Lean
`String` (a wrapper around `List Char`); JavaScript numbers appearing in the
pipeline are small integers and are modelled as `Nat`/`Int`, with the one
non-finite result (division by a zero source count) modelled as `none` in an
`Option Nat`.
-/

/-- Characters treated as whitespace by the JavaScript regex class `\s`
(restricted to the ASCII subset that can actually occur in the pipeline's
strings: space, tab, line feed, carriage return). -/
def isJsWs (c : Char) : Bool :=
  c = ' ' || c = '\t' || c = '\n' || c = '\r'

/-- JavaScript `String.prototype.trim`: drop leading and trailing whitespace. -/
def trimChars (cs : List Char) : List Char :=
  ((cs.dropWhile isJsWs).reverse.dropWhile isJsWs).reverse

/-- Substring test on character lists (JavaScript `haystack.includes(needle)`). -/
def containsSub (pat : List Char) : List Char → Bool
  | [] => pat.isEmpty
  | c :: t => pat.isPrefixOf (c :: t) || containsSub pat t

/-- JavaScript `s.includes(pat)` on `String`s. -/
def strIncludes (s pat : String) : Bool :=
  containsSub pat.data s.data

/-- Splitter for the regex `/\s+/` applied by the word counter: the flag
records whether we are inside a whitespace run that has already emitted the
current token. -/
def splitWsRuns : Bool → List Char → List Char → List (List Char)
  | _, cur, [] => [cur]
  | skip, cur, c :: t =>
      if isJsWs c then
        if skip then splitWsRuns true cur t
        else cur :: splitWsRuns true [] t
      else splitWsRuns false (cur ++ [c]) t

/-- The word counter used throughout the route:
`content.trim().split(/\s+/).length`.  Note that on the empty string the
JavaScript split yields `[""]`, of length 1, which this definition mirrors. -/
def wordCountJS (s : String) : Nat :=
  (splitWsRuns false [] (trimChars s.data)).length

/-- Case-insensitive prefix test (for the `/.../i` regex alternatives). -/
def isPrefixCI : List Char → List Char → Bool
  | [], _ => true
  | _ :: _, [] => false
  | p :: ps, c :: cs => p.toLower = c.toLower && isPrefixCI ps cs

/-- The prefix of the content before the first (case-insensitive) occurrence
of `Sources:`, `References:` or `Bibliography:` — this models
`content.split(/References:|Sources:|Bibliography:/i)[0]`. -/
def takeUntilRefs : List Char → List Char
  | [] => []
  | c :: t =>
      if isPrefixCI "references:".data (c :: t)
          || isPrefixCI "sources:".data (c :: t)
          || isPrefixCI "bibliography:".data (c :: t) then []
      else c :: takeUntilRefs t

/-- First-occurrence deduplication with an accumulator of already seen
elements; this is the insertion-order semantics of `[...new Set(list)]`. -/
def dedupAcc (seen : List String) : List String → List String
  | [] => []
  | x :: t => if x ∈ seen then dedupAcc seen t else x :: dedupAcc (x :: seen) t

/-- Split first-occurrence helper: the part of the list before the first
occurrence of `pat` and the part after it. -/
def splitFirstSub (pat : List Char) : List Char → Option (List Char × List Char)
  | [] => if pat.isEmpty then some ([], []) else none
  | c :: t =>
      if pat.isPrefixOf (c :: t) then some ([], (c :: t).drop pat.length)
      else
        match splitFirstSub pat t with
        | some (a, b) => some (c :: a, b)
        | none => none

/-- Partial model of the hostname produced by the JavaScript `new URL(u)`
constructor: requires a nonempty scheme before `://` and a nonempty host,
which covers every URL shape the pipeline manipulates; other inputs model the
thrown `TypeError` as `none`.  The host is lowercased as `URL` does. -/
def urlHostname (u : String) : Option String :=
  match splitFirstSub "://".data u.data with
  | none => none
  | some (scheme, rest) =>
      if scheme.isEmpty then none
      else
        let host := rest.takeWhile fun c => c ≠ '/' && c ≠ ':' && c ≠ '?' && c ≠ '#'
        if host.isEmpty then none else some ⟨host.map Char.toLower⟩

/-- `hostname.replace(/^www\./, '')`. -/
def stripWww (h : String) : String :=
  if "www.".data.isPrefixOf h.data then ⟨h.data.drop 4⟩ else h

/-- A formatted source record.  The `id` is an `Option` because the deep-mode
pipeline hands `formatContentToHTML` raw provider records that carry no `id`
field at all (JavaScript `undefined`, modelled as `none`). -/
structure Source where
  id : Option String
  title : String
  url : String
  snippet : String
  favicon : Option String
deriving DecidableEq

/-- Raw hit shape returned by the Google search client
(`interface SearchResult` in the route). -/
structure SearchResult where
  title : String
  link : String
  snippet : String
  ogImage : Option String
  cseImage : Option String
deriving DecidableEq

/-- A processed Serper hit as produced by `fetchSerperSources`: note the
record has no `id` field. -/
structure SerperSource where
  title : String
  url : String
  snippet : String
  position : Nat
  favicon : Option String
deriving DecidableEq

/-- The view of a Serper record that `formatContentToHTML` sees in deep mode:
reading the missing `id` property yields `undefined`, i.e. `none`. -/
def serperView (s : SerperSource) : Source :=
  ⟨none, s.title, s.url, s.snippet, s.favicon⟩

/-- JavaScript strict equality `s.id === id` between a possibly-`undefined`
id field and the matched citation number string. -/
def optIdEq (o : Option String) (d : String) : Bool :=
  match o with
  | some v => v == d
  | none => false

/-- `Math.round(used / total * 100)` over the pipeline's nonnegative counts.
A zero `total` makes the JavaScript division non-finite (`NaN` for `0/0`,
`Infinity` otherwise), modelled as `none`; otherwise the value is the
half-up rounding of the exact rational `used*100/total`. -/
def sourceUsagePercentJS (used total : Nat) : Option Nat :=
  if total = 0 then none else some ((used * 100 * 2 + total) / (total * 2))

/-! ### Rate limiter (`checkRateLimit`, route lines 36-59) -/

def rateLimitWindow : Int := 60000
def maxRequestsPerWindow : Nat := 5
def minDelayBetweenRequests : Int := 3000

/-- The module-level mutable rate limiter state: the recent request
timestamps and the time of the last request. -/
structure RLState where
  timestamps : List Int
  lastRequestTime : Int
deriving DecidableEq

/-- Outcome of one call to `checkRateLimit`: a throttling suspension, a
thrown rate-limit error carrying its message, or admission (with the
timestamp recorded).  Each outcome carries the state as mutated by the call. -/
inductive RLOutcome where
  | wait (ms : Int) (st : RLState)
  | limited (msg : String) (st : RLState)
  | proceed (st : RLState)
deriving DecidableEq

/-- `Math.min(...list)` for the nonempty timestamp list. -/
def jsMinList : List Int → Int
  | [] => 0
  | h :: t => t.foldl min h

/-- `Math.ceil(t / 1000)` for the positive wait time. -/
def jsCeilDiv1000 (t : Int) : Int := (t + 999) / 1000

/-- Shallow embedding of `checkRateLimit`: prune timestamps older than the
window, suspend when the minimum inter-request delay has not elapsed, throw
when the pruned window is full (the message carries the seconds until the
oldest entry expires), otherwise record the new timestamp. -/
def checkRateLimit (now : Int) (st : RLState) : RLOutcome :=
  let ts := st.timestamps.filter fun t => now - t < rateLimitWindow
  let timeSinceLast := now - st.lastRequestTime
  if timeSinceLast < minDelayBetweenRequests then
    .wait (minDelayBetweenRequests - timeSinceLast) ⟨ts, st.lastRequestTime⟩
  else if maxRequestsPerWindow ≤ ts.length then
    let oldest := jsMinList ts
    let timeToWait := rateLimitWindow - (now - oldest)
    .limited ("Rate limit exceeded. Please wait " ++ toString (jsCeilDiv1000 timeToWait)
      ++ " seconds before trying again.") ⟨ts, st.lastRequestTime⟩
  else .proceed ⟨ts ++ [now], now⟩

/-- Status-code mapping of the quick-mode `POST` error handler (route lines
824-837): `error.message.includes(...)` is case sensitive. -/
def statusCodeFor (msg : String) : Nat :=
  if strIncludes msg "rate limit" then 429
  else if strIncludes msg "quota" then 429
  else if strIncludes msg "invalid" then 400
  else 500

/-! ### Search aggregation (`searchWithPriority`, route lines 145-191) -/

def quickResearchMinSources : Nat := 10

def searchFailMsg : String := "Failed to search for sources. Please try again."

/-- One insertion into the JavaScript `Map` used for URL deduplication:
an existing key keeps its position but takes the new value, a new key is
appended. -/
def jsMapUpsert {α β : Type} [BEq β] (f : α → β) (acc : List α) (a : α) : List α :=
  if acc.any (fun b => f b == f a) then
    acc.map fun b => if f b == f a then a else b
  else acc ++ [a]

/-- `Array.from(new Map(list.map(item => [f item, item])).values())`. -/
def jsMapDedupBy {α β : Type} [BEq β] (f : α → β) (l : List α) : List α :=
  l.foldl (jsMapUpsert f) []

/-- The tail of `searchWithPriority`: deduplicate by URL and apply
`slice(0, Math.max(minSources, uniqueResults.length))`. -/
def finishSearch (all : List SearchResult) : List SearchResult :=
  let uniq := jsMapDedupBy (fun r => r.link) all
  uniq.take (max quickResearchMinSources uniq.length)

/-- Shallow embedding of `searchWithPriority`.  Each tier argument is the
outcome of that tier's `checkRateLimit`-gated provider call: `.error` models
a thrown exception (network failure, provider error or a rate-limit throw),
`.ok items` a successful response.  The whole tier sequence sits inside one
`try`; the `catch` replaces any thrown error with the generic search-failure
message. -/
def searchWithPriority (t1 t2 t3 : Except String (List SearchResult)) :
    Except String (List SearchResult) :=
  match t1 with
  | .error _ => .error searchFailMsg
  | .ok r1 =>
      let all1 := if 0 < r1.length then r1 else []
      if all1.length < quickResearchMinSources then
        match t2 with
        | .error _ => .error searchFailMsg
        | .ok r2 =>
            let all2 := if 0 < r2.length then all1 ++ r2 else all1
            if all2.length < quickResearchMinSources then
              match t3 with
              | .error _ => .error searchFailMsg
              | .ok r3 => .ok (finishSearch (if 0 < r3.length then all2 ++ r3 else all2))
            else .ok (finishSearch all2)
      else .ok (finishSearch all1)

/-! ### Source formatting (quick mode, route lines 615-627) -/

/-- `getFavicon`: prefer the provider image metadata (a truthy check, so the
empty string does not count), otherwise derive an icon URL from the hit's
hostname; a URL parse failure yields `undefined`. -/
def getFavicon (item : SearchResult) : Option String :=
  let meta :=
    match item.ogImage with
    | some m => if m = "" then (match item.cseImage with
        | some cs => if cs = "" then none else some cs
        | none => none) else some m
    | none =>
        match item.cseImage with
        | some cs => if cs = "" then none else some cs
        | none => none
  match meta with
  | some m => some m
  | none =>
      match urlHostname item.link with
      | some h => some ("https://icons.duckduckgo.com/ip3/" ++ stripWww h ++ ".ico")
      | none => none

/-- The per-hit record built by the quick-mode `POST` step 2 before
filtering: `id` is the raw 1-based input index. -/
def mkQuickSource (i : Nat) (item : SearchResult) : Source :=
  ⟨some (toString (i + 1)), item.title, item.link, item.snippet, getFavicon item⟩

/-- `map` with the running index, starting at `i` (JavaScript
`array.map((item, i) => ...)` begins at 0). -/
def mapIdxFrom {α β : Type} (f : Nat → α → β) : Nat → List α → List β
  | _, [] => []
  | i, a :: t => f i a :: mapIdxFrom f (i + 1) t

/-- The truthiness filter `source.url && source.title`. -/
def keepSrc (s : Source) : Bool := s.url != "" && s.title != ""

/-- Quick-mode source formatting: ids are assigned by `map` over the raw
hits first, and hits missing a title or URL are dropped afterwards. -/
def quickFormatSources (hits : List SearchResult) : List Source :=
  (mapIdxFrom mkQuickSource 0 hits).filter keepSrc

/-! ### Citation marker scanning and replacement -/

/-- Scanner for the global regex `/\[(\d+)\]/g`, returning the captured digit
groups in order.  The state is `none` outside a candidate match and
`some ds` after a `[` with digits `ds` collected so far; a failed candidate
resumes scanning exactly where the JavaScript engine would. -/
def digitMarkersGo : Option (List Char) → List Char → List String
  | _, [] => []
  | none, c :: t => if c = '[' then digitMarkersGo (some []) t else digitMarkersGo none t
  | some ds, c :: t =>
      if c.isDigit then digitMarkersGo (some (ds ++ [c])) t
      else if c = ']' then
        if ds.isEmpty then digitMarkersGo none t
        else (⟨ds⟩ : String) :: digitMarkersGo none t
      else if c = '[' then digitMarkersGo (some []) t
      else digitMarkersGo none t

/-- All `\[(\d+)\]` citation numbers of a string, in order. -/
def extractDigitMarkers (s : String) : List String :=
  digitMarkersGo none s.data

/-- Replacement scanner for `content.replace(/\[(\d+)\]/g, repl)`: unmatched
text is copied verbatim and every digit marker `[n]` is replaced by
`repl n`. -/
def replaceDigitsGo (repl : String → String) : Option (List Char) → List Char → List Char
  | none, [] => []
  | some ds, [] => '[' :: ds
  | none, c :: t =>
      if c = '[' then replaceDigitsGo repl (some []) t
      else c :: replaceDigitsGo repl none t
  | some ds, c :: t =>
      if c.isDigit then replaceDigitsGo repl (some (ds ++ [c])) t
      else if c = ']' then
        if ds.isEmpty then '[' :: ']' :: replaceDigitsGo repl none t
        else (repl ⟨ds⟩).data ++ replaceDigitsGo repl none t
      else if c = '[' then '[' :: ds ++ replaceDigitsGo repl (some []) t
      else '[' :: ds ++ c :: replaceDigitsGo repl none t

/-- JavaScript `s.replace(/\[(\d+)\]/g, (match, id) => repl id)`. -/
def jsReplaceDigitCitations (repl : String → String) (s : String) : String :=
  ⟨replaceDigitsGo repl none s.data⟩

/-- The replacement callback of the citation pass of `formatContentToHTML`
(route lines 101-111): an unknown id keeps the literal matched text, a known
source becomes an anchor (with the hostname when the source URL parses). -/
def citeReplacement (sources : List Source) (id : String) : String :=
  match sources.find? (fun s => optIdEq s.id id) with
  | none => "[" ++ id ++ "]"
  | some s =>
      match urlHostname s.url with
      | some h =>
          "<a href=\"" ++ s.url ++ "\" target=\"_blank\" rel=\"noopener noreferrer\""
            ++ " class=\"citation\" title=\"" ++ s.title ++ "\">[" ++ id ++ " "
            ++ stripWww h ++ "]</a>"
      | none =>
          "<a href=\"" ++ s.url ++ "\" target=\"_blank\" rel=\"noopener noreferrer\""
            ++ " class=\"citation\" title=\"" ++ s.title ++ "\">[" ++ id ++ "]</a>"

/-- The citation-replacement step of `formatContentToHTML` in the research
route — the only step of that function that can turn a marker into an anchor
element. -/
def formatCitationsPass (sources : List Source) (content : String) : String :=
  jsReplaceDigitCitations (citeReplacement sources) content

/-- The citation step as invoked from the deep-mode `POST` branch: the
source list handed to `formatContentToHTML` is the raw Serper list, whose
records carry no `id` field (ids are attached to the response array only
after formatting has run). -/
def deepCitationStep (srcs : List SerperSource) (content : String) : String :=
  formatCitationsPass (srcs.map serperView) content

/-! ### Cipher edit endpoint (`src/app/api/cipher/route.ts`) -/

/-- The cipher route's local `Source` shape: the id is always a plain
string there. -/
structure CipherSource where
  id : String
  title : String
  url : String
deriving DecidableEq

/-- The deduplicated citation ids of a content string:
`[...new Set(content.match(/\[(\d+)\]/g).map(strip brackets))]`. -/
def cipherCitationIds (content : String) : List String :=
  dedupAcc [] (extractDigitMarkers content)

/-- `extractSources` of the cipher route: one placeholder record per distinct
cited id. -/
def extractSources (content : String) : List CipherSource :=
  (cipherCitationIds content).map fun id => ⟨id, "", ""⟩

/-- The anchor the cipher route substitutes for each citation marker. -/
def cipherAnchor (id : String) : String :=
  "<a href=\"#\" class=\"citation\" data-preview=\"Source " ++ id
    ++ "\" title=\"Source " ++ id ++ "\">[" ++ id ++ "]</a>"

/-- `processEdit`'s citation formatting pass. -/
def cipherFormat (content : String) : String :=
  jsReplaceDigitCitations cipherAnchor content

/-- The observable outcome of `processEdit`: either the 400 response listing
the invalid citation ids, or the 200 response with the formatted content and
the recomputed metadata (`citationsUsed` distinct count and the usage
percentage, which is non-finite when the source list is empty). -/
inductive EditResult where
  | invalid (ids : List String)
  | ok (editedContent : String) (citationsUsed : Nat) (sourceUsagePercent : Option Nat)
deriving DecidableEq

/-- Shallow embedding of `processEdit` (cipher route lines 152-191): reject
when the edited content cites any id absent from the existing sources,
otherwise format the citations and recompute the metadata. -/
def processEdit (editedContent : String) (existingSources : List CipherSource) : EditResult :=
  let newSources := extractSources editedContent
  let invalidSources := newSources.filter fun s =>
    !(existingSources.any fun es => es.id == s.id)
  if 0 < invalidSources.length then .invalid (invalidSources.map fun s => s.id)
  else
    let formatted := cipherFormat editedContent
    let uniq := dedupAcc [] (extractDigitMarkers formatted)
    .ok formatted uniq.length (sourceUsagePercentJS uniq.length existingSources.length)

/-! ### Range-expanding citation handling (the historical research route
variant with `formatContentToHTML` on `/\[([^\]]+)\]/g` and the expanded
`citationsUsed` metric) -/

/-- Scanner for the global regex `/\[([^\]]+)\]/g`: collects the bracketed
contents (which may themselves contain `[`). -/
def anyMarkersGo : Option (List Char) → List Char → List String
  | _, [] => []
  | none, c :: t => if c = '[' then anyMarkersGo (some []) t else anyMarkersGo none t
  | some ds, c :: t =>
      if c = ']' then
        if ds.isEmpty then anyMarkersGo none t
        else (⟨ds⟩ : String) :: anyMarkersGo none t
      else anyMarkersGo (some (ds ++ [c])) t

/-- All `\[([^\]]+)\]` citation marker contents of a string, in order. -/
def extractAnyMarkers (s : String) : List String :=
  anyMarkersGo none s.data

/-- Splitter for the regex `/,\s*/`: a comma plus the following whitespace
run separates tokens. -/
def splitCommaWsGo : Bool → List Char → List Char → List (List Char)
  | _, cur, [] => [cur]
  | skip, cur, c :: t =>
      if c = ',' then cur :: splitCommaWsGo true [] t
      else if skip && isJsWs c then splitCommaWsGo true cur t
      else splitCommaWsGo false (cur ++ [c]) t

/-- `part.split(sep)` on a single separator character, keeping empty parts. -/
def splitOnCharGo (sep : Char) (cur : List Char) : List Char → List (List Char)
  | [] => [cur]
  | c :: t => if c = sep then cur :: splitOnCharGo sep [] t else splitOnCharGo sep (cur ++ [c]) t

/-- `citation.replace(/[\[\]]/g, '')`. -/
def stripBrackets (cs : List Char) : List Char :=
  cs.filter fun c => c ≠ '[' && c ≠ ']'

/-- Nat value of a digit string. -/
def digitsToNat (ds : List Char) : Nat :=
  ds.foldl (fun n c => n * 10 + (c.toNat - '0'.toNat)) 0

/-- Partial model of the JavaScript `Number(s)` conversion, covering the
integer strings the citation grammar can produce: surrounding whitespace is
ignored, the empty string is 0, an optionally negated digit run is its
value, and anything else is `NaN` (`none`). -/
def jsNumber (cs : List Char) : Option Int :=
  let t := trimChars cs
  match t with
  | [] => some 0
  | '-' :: ds => if !ds.isEmpty && ds.all Char.isDigit then some (-(digitsToNat ds : Int)) else none
  | ds => if ds.all Char.isDigit then some (digitsToNat ds : Int) else none

/-- Length of `Array.from({ length: end - start + 1 })` (`0` when either
bound is `NaN` or the range is empty, as `Array.from` clamps). -/
def rangeLen (a b : Option Int) : Nat :=
  match a, b with
  | some x, some y => (y - x + 1).toNat
  | _, _ => 0

/-- `Array.from({ length: end - start + 1 }, (_, i) => String(start + i))`. -/
def expandRangeIds (a b : Option Int) : List String :=
  match a, b with
  | some x, some y => (List.range (y - x + 1).toNat).map fun i => toString (x + (i : Int))
  | _, _ => []

/-- Number of individual citations a comma-separated part contributes to the
total `citationsUsed` metric: a hyphenated part expands to its range length,
anything else counts once. -/
def partExpandCount (part : List Char) : Nat :=
  if part.contains '-' then
    let ps := splitOnCharGo '-' [] part
    rangeLen (jsNumber (ps.getD 0 [])) (jsNumber (ps.getD 1 []))
  else 1

/-- The individual ids a comma-separated part resolves to: a hyphenated part
expands to its inclusive range, anything else is the trimmed part itself. -/
def partExpandIds (part : List Char) : List String :=
  if part.contains '-' then
    let ps := splitOnCharGo '-' [] part
    expandRangeIds (jsNumber (ps.getD 0 [])) (jsNumber (ps.getD 1 []))
  else [⟨trimChars part⟩]

/-- The total `citationsUsed` metric of the range-expanding `POST`: every
`/\[([^\]]+)\]/g` match is stripped of brackets, split on `/,\s*/`, and each
part contributes its expanded member count. -/
def citationsUsedTotal (content : String) : Nat :=
  (extractAnyMarkers content).foldl
    (fun count m =>
      count + ((splitCommaWsGo false [] (stripBrackets m.data)).map partExpandCount).sum) 0

/-- The distinct resolved citation ids of the range-expanding variant
(`new Set(citationMatches.flatMap(expand))`, insertion order). -/
def resolvedIdSet (content : String) : List String :=
  dedupAcc [] ((extractAnyMarkers content).flatMap fun m => (splitCommaWsGo false [] m.data).flatMap partExpandIds)

/-! ### Quick-mode generation gate (route lines 752-777) -/

/-- The single-attempt validation of the quick-mode generation step, in the
order the checks appear in the code: empty response, character length below
500, blank content, then the 900-word floor.  There is no retry loop around
this in quick mode. -/
def quickGenerateValidate (content : String) : Except String String :=
  if content = "" then .error "Empty response from Gemini"
  else if content.length < 500 then .error "Generated content too short"
  else if trimChars content.data = [] then .error "No content generated by the AI model."
  else if wordCountJS content < 900 then
    .error "Generated content too short (minimum 900 words required)"
  else .ok content

/-! ### Deep-mode section generation (`generateDeepResearch`, route lines
311-565) -/

/-- Case-insensitive `includes` as used by the source grouping
(`s.title.toLowerCase().includes(pat)` with an already lowercase pattern). -/
def lowIncl (s pat : String) : Bool :=
  containsSub pat.data (s.data.map Char.toLower)

/-- The per-section source groups of `generateDeepResearch`. -/
structure SourceGroups where
  introduction : List Source
  literature : List Source
  methodology : List Source
  analysis : List Source
  conclusion : List Source

/-- Shallow embedding of the keyword grouping (route lines 313-358); the
JavaScript `Set` of already used sources is modelled by value equality of the
records, which coincides with the code's object identity because every group
member is drawn from the same `sources` array. -/
def sourceGroups (sources : List Source) : SourceGroups :=
  let intro := sources.filter fun s =>
    lowIncl s.title "introduction" || lowIncl s.title "overview"
      || lowIncl s.snippet "background" || lowIncl s.snippet "context"
  let lit := sources.filter fun s =>
    lowIncl s.title "review" || lowIncl s.title "study" || lowIncl s.title "research"
      || lowIncl s.snippet "findings" || lowIncl s.snippet "analysis"
  let meth := sources.filter fun s =>
    lowIncl s.title "method" || lowIncl s.title "approach"
      || lowIncl s.snippet "methodology" || lowIncl s.snippet "procedure"
  let anal := sources.filter fun s =>
    lowIncl s.title "result" || lowIncl s.title "analysis" || lowIncl s.title "finding"
      || lowIncl s.snippet "data" || lowIncl s.snippet "outcome"
  let concl := sources.filter fun s =>
    lowIncl s.title "conclusion" || lowIncl s.title "implication"
      || lowIncl s.snippet "future" || lowIncl s.snippet "recommend"
  let used := intro ++ lit ++ meth ++ anal ++ concl
  let remaining := sources.filter fun s => !(used.contains s)
  ⟨intro, lit ++ remaining, meth, anal, concl⟩

/-- Interpolating a possibly missing `id` field renders JavaScript
`undefined` as the literal text `undefined`. -/
def idInterp : Option String → String
  | some i => i
  | none => "undefined"

/-- The per-group source listing interpolated into each section prompt. -/
def fmtGroup (l : List Source) : String :=
  String.intercalate "\n" (l.map fun s =>
    "[" ++ idInterp s.id ++ "] " ++ s.title ++ "\nKey Points: " ++ s.snippet
      ++ "\nURL: " ++ s.url ++ "\n")

/-- The value of the `previousContent` variable at the moment the `prompts`
array literal is evaluated: the code declares `let previousContent = ''` and
builds all five template literals immediately afterwards, before the
generation loop runs, so every interpolation of it sees the empty string
(the later `previousContent = cleanedContent` assignment happens after the
array is already fixed). -/
def previousContentAtBuild : String := ""

/-- The five section prompts of `generateDeepResearch` (route lines
376-497), transcribed from the template literals with `previousContent`
interpolated at its build-time value. -/
def deepPrompts (query : String) (sources : List Source) : List String :=
  let g := sourceGroups sources
  ["Write the introduction section of a comprehensive research analysis about \""
      ++ query ++ "\" using these relevant sources:\n\n"
      ++ fmtGroup g.introduction
      ++ "\n\nWrite a detailed introduction (minimum 200 words) that:\n"
      ++ "- Introduces the research topic\n- Provides background context\n"
      ++ "- States the research objectives\n- Outlines the paper structure\n\n"
      ++ "Requirements:\n- Use academic language\n"
      ++ "- For citations, use the format [X] where X is the source number\n"
      ++ "- Each citation should be a clickable link to the source URL\n"
      ++ "- DO NOT include a references section\n"
      ++ "- DO NOT stop in the middle of a sentence",
    "Continue the research analysis about \"" ++ query
      ++ "\" by writing the literature review section. Here's what was covered in the introduction:\n\n"
      ++ previousContentAtBuild
      ++ "\n\nUse these relevant sources for the literature review:\n"
      ++ fmtGroup g.literature
      ++ "\n\nWrite a comprehensive literature review (minimum 1200 words) that:\n"
      ++ "- Reviews existing research\n- Discusses key theories and concepts\n"
      ++ "- Identifies research gaps\n- Synthesizes findings from multiple sources\n\n"
      ++ "Requirements:\n- Continue naturally from the introduction\n- Use academic language\n"
      ++ "- For citations, use the format [X] where X is the source number\n"
      ++ "- Each citation should be a clickable link to the source URL\n"
      ++ "- DO NOT include a references section\n"
      ++ "- DO NOT stop in the middle of a sentence",
    "Continue the research analysis about \"" ++ query
      ++ "\" by writing the methodology section. Here's what was covered in the literature review:\n\n"
      ++ previousContentAtBuild
      ++ "\n\nUse these relevant sources for the methodology section:\n"
      ++ fmtGroup g.methodology
      ++ "\n\nWrite a detailed methodology section (minimum 300 words) that:\n"
      ++ "- Describes research approach\n- Explains data collection methods\n"
      ++ "- Details analysis techniques\n- Justifies methodological choices\n\n"
      ++ "Requirements:\n- Continue naturally from the literature review\n- Use academic language\n"
      ++ "- For citations, use the format [X] where X is the source number\n"
      ++ "- Each citation should be a clickable link to the source URL\n"
      ++ "- DO NOT include a references section\n"
      ++ "- DO NOT stop in the middle of a sentence",
    "Continue the research analysis about \"" ++ query
      ++ "\" by writing the data analysis section. Here's what was covered in the methodology:\n\n"
      ++ previousContentAtBuild
      ++ "\n\nUse these relevant sources for the data analysis:\n"
      ++ fmtGroup g.analysis
      ++ "\n\nWrite a detailed data analysis section (minimum 200 words) that:\n"
      ++ "- Presents key findings\n- Analyzes research results\n"
      ++ "- Interprets data patterns\n- Discusses implications\n\n"
      ++ "Requirements:\n- Continue naturally from the methodology section\n- Use academic language\n"
      ++ "- For citations, use the format [X] where X is the source number\n"
      ++ "- Each citation should be a clickable link to the source URL\n"
      ++ "- DO NOT include a references section\n"
      ++ "- DO NOT stop in the middle of a sentence",
    "Write the conclusion section of the research analysis about \"" ++ query
      ++ "\". Here's what was covered in the data analysis:\n\n"
      ++ previousContentAtBuild
      ++ "\n\nUse these relevant sources for the conclusion:\n"
      ++ fmtGroup g.conclusion
      ++ "\n\nWrite a conclusion section (minimum 100 words) that:\n"
      ++ "- Summarizes key findings\n- Addresses research objectives\n"
      ++ "- Discusses implications\n- Suggests future research\n\n"
      ++ "Requirements:\n- Continue naturally from the data analysis section\n- Use academic language\n"
      ++ "- For citations, use the format [X] where X is the source number\n"
      ++ "- Each citation should be a clickable link to the source URL\n"
      ++ "- DO NOT include a references section\n"
      ++ "- DO NOT stop in the middle of a sentence"]

/-- The per-section minimum word counts `[200, 1200, 300, 200, 100]`. -/
def sectionMinWords : List Nat := [200, 1200, 300, 200, 100]

/-- One section's attempt loop (up to the attempt cap): the LLM is modelled
as a deterministic function from prompt to response text (an empty response
models the thrown empty-response error).  Returns the transcript of prompts
actually sent plus the accepted cleaned section text, if any.  Every retry
re-sends the same fixed prompt. -/
def runChunkAttempts (llm : String → String) (prompt : String) (minW : Nat) :
    Nat → List String × Option String
  | 0 => ([], none)
  | n + 1 =>
      let txt := llm prompt
      if txt = "" then
        let r := runChunkAttempts llm prompt minW n
        (prompt :: r.1, r.2)
      else
        let cleaned : String := ⟨trimChars (takeUntilRefs txt.data)⟩
        if wordCountJS cleaned < minW then
          let r := runChunkAttempts llm prompt minW n
          (prompt :: r.1, r.2)
        else ([prompt], some cleaned)

/-- The sequential chunk loop: a section that exhausts its attempts fails the
whole report. -/
def runChunksFrom (llm : String → String) : Nat → List (String × Nat) →
    List String × Except String (List String)
  | _, [] => ([], .ok [])
  | i, (p, m) :: rest =>
      match runChunkAttempts llm p m 3 with
      | (t, none) =>
          (t, .error ("Failed to generate chunk " ++ toString (i + 1) ++ " after 3 attempts"))
      | (t, some c) =>
          let r := runChunksFrom llm (i + 1) rest
          (t ++ r.1, r.2.map fun cs => c :: cs)

/-- Shallow embedding of `generateDeepResearch`: build the five prompts once
(with the empty `previousContent`), run the chunk loop, combine the accepted
sections under the fixed headers, and enforce the 2000-word aggregate floor.
The first component is the transcript of every prompt sent to the LLM. -/
def generateDeepResearch (llm : String → String) (query : String) (sources : List Source) :
    List String × Except String String :=
  let ps := deepPrompts query sources
  let r := runChunksFrom llm 0 (ps.zip sectionMinWords)
  match r.2 with
  | .error e => (r.1, .error ("Research generation failed: " ++ e))
  | .ok cs =>
      let full := "# Introduction\n\n" ++ cs.getD 0 "" ++ "\n\n# Literature Review\n\n"
        ++ cs.getD 1 "" ++ "\n\n# Research Methodology\n\n" ++ cs.getD 2 ""
        ++ "\n\n# Data Analysis\n\n" ++ cs.getD 3 "" ++ "\n\n# Conclusion\n\n" ++ cs.getD 4 ""
      if wordCountJS full < 2000 then
        (r.1, .error ("Research generation failed: Total content too short ("
          ++ toString (wordCountJS full) ++ " words)"))
      else (r.1, .ok full)

/-! ### Concrete inputs used by the witnesses and counterexamples -/

/-- A ten-source list with ids `"1"` through `"10"`. -/
def sources10 : List Source :=
  (List.range 10).map fun i =>
    ⟨some (toString (i + 1)), "Title " ++ toString (i + 1),
      "https://example.org/paper/" ++ toString (i + 1), "snippet", none⟩

/-- Report text whose citation markers are exactly `[1]`, `[2, 4]` and
`[6-8]`. -/
def c1Content : String :=
  "Overview [1] compares the studies [2, 4] with the later surveys [6-8] in detail."

/-- An edited content that keeps the existing citation `[1]` and introduces
the unknown citation `[99]`. -/
def editedEx : String := "Keep [1] but add a claim [99] here."

/-- The existing sources of the cipher edit session for the witness. -/
def existingEx : List CipherSource := [⟨"1", "", ""⟩]

/-- Twelve well-formed raw hits with pairwise distinct URLs. -/
def hits12 : List SearchResult :=
  (List.range 12).map fun i =>
    ⟨"Result " ++ toString (i + 1), "https://site" ++ toString (i + 1) ++ ".example/a",
      "snippet", none, none⟩

/-- A raw hit list containing an exact duplicate URL and a pair of URLs that
differ only in the casing of a query parameter. -/
def dupHits : List SearchResult :=
  [⟨"First", "http://example.com/page?q=a", "s1", none, none⟩,
   ⟨"Other", "http://other.example/x", "s2", none, none⟩,
   ⟨"CaseDiff", "http://example.com/page?Q=A", "s3", none, none⟩,
   ⟨"FirstDup", "http://example.com/page?q=a", "s4", none, none⟩]

/-- The aggregation output on `dupHits`: the duplicate key keeps its first
position but the later value, and the case-differing URL is a distinct key. -/
def dupHitsOut : List SearchResult :=
  [⟨"FirstDup", "http://example.com/page?q=a", "s4", none, none⟩,
   ⟨"Other", "http://other.example/x", "s2", none, none⟩,
   ⟨"CaseDiff", "http://example.com/page?Q=A", "s3", none, none⟩]

/-- Three raw hits whose middle element is missing its title. -/
def hitsDropEx : List SearchResult :=
  [⟨"Alpha", "http://a.example/1", "sa", none, none⟩,
   ⟨"", "http://b.example/2", "sb", none, none⟩,
   ⟨"Gamma", "http://c.example/3", "sc", none, none⟩]

/-- Two well-formed raw hits (nothing is dropped). -/
def hitsKeepEx : List SearchResult :=
  [⟨"Alpha", "http://a.example/1", "sa", none, none⟩,
   ⟨"Beta", "http://b.example/2", "sb", some "http://b.example/logo.png", none⟩]

/-- A 480-word generated report (959 characters). -/
def c480 : String := ⟨(List.replicate 479 ['w', ' ']).flatten ++ ['w']⟩

/-- A 600-word generated report (1199 characters) — above the claimed
500-word floor. -/
def c600 : String := ⟨(List.replicate 599 ['w', ' ']).flatten ++ ['w']⟩

/-- A 200-word introduction section containing the marker token
`XAMARKER` (the 200th word). -/
def introEx : String := (⟨(List.replicate 199 ['w', ' ']).flatten⟩ : String) ++ "XAMARKER"

/-- A deterministic LLM that answers the introduction prompt of the deep run
for query `"climate"` with `introEx` and every other prompt with a two-word
response. -/
def llmEx : String → String := fun p =>
  if p = (deepPrompts "climate" []).getD 0 "" then introEx else "too short"

/-- The message `checkRateLimit` throws for the concrete full-window state
below. -/
def rlMsg10 : String := "Rate limit exceeded. Please wait 10 seconds before trying again."

/-- A rate limiter state whose pruned window already holds five timestamps
at time 100000. -/
def rlFullState : RLState := ⟨[50000, 51000, 52000, 53000, 54000], 90000⟩

instance {ε α : Type} [DecidableEq ε] [DecidableEq α] : DecidableEq (Except ε α) :=
  fun a b =>
    match a, b with
    | .error e, .error f =>
        if h : e = f then .isTrue (by rw [h]) else .isFalse (by intro hc; injection hc; contradiction)
    | .error _, .ok _ => .isFalse (by intro hc; exact Except.noConfusion hc)
    | .ok _, .error _ => .isFalse (by intro hc; exact Except.noConfusion hc)
    | .ok x, .ok y =>
        if h : x = y then .isTrue (by rw [h]) else .isFalse (by intro hc; injection hc; contradiction)

/-! ### Helper lemmas -/

/-- When the replacement callback maps every digit group back to its literal
matched text, the replacement scan is the identity (stated with the pending
state flushed in front). -/
theorem replaceDigitsGo_flush (repl : String → String)
    (hrepl : ∀ ds : List Char, repl ⟨ds⟩ = ⟨'[' :: (ds ++ [']'])⟩) :
    ∀ (cs : List Char) (st : Option (List Char)),
      replaceDigitsGo repl st cs
        = (match st with | none => [] | some ds => '[' :: ds) ++ cs := by
  intro cs
  induction cs with
  | nil => intro st; cases st <;> simp [replaceDigitsGo]
  | cons c t ih =>
      intro st
      cases st with
      | none =>
          by_cases hc : c = '['
          · subst hc
            have h1 : replaceDigitsGo repl none ('[' :: t) = replaceDigitsGo repl (some []) t := by
              simp [replaceDigitsGo]
            rw [h1, ih (some [])]
            simp
          · simp [replaceDigitsGo, hc, ih none]
      | some ds =>
          by_cases hd : c.isDigit
          · have h1 : replaceDigitsGo repl (some ds) (c :: t)
                = replaceDigitsGo repl (some (ds ++ [c])) t := by
              simp [replaceDigitsGo, hd]
            rw [h1, ih (some (ds ++ [c]))]
            simp
          · by_cases hb : c = ']'
            · subst hb
              by_cases he : ds.isEmpty
              · have hde : ds = [] := by simpa [List.isEmpty_iff] using he
                subst hde
                have h1 : replaceDigitsGo repl (some []) (']' :: t)
                    = '[' :: ']' :: replaceDigitsGo repl none t := by
                  simp [replaceDigitsGo, hd]
                rw [h1, ih none]
                simp
              · have h1 : replaceDigitsGo repl (some ds) (']' :: t)
                    = (repl ⟨ds⟩).data ++ replaceDigitsGo repl none t := by
                  simp [replaceDigitsGo, hd, he]
                rw [h1, ih none, hrepl ds]
                simp
            · by_cases hob : c = '['
              · subst hob
                have h1 : replaceDigitsGo repl (some ds) ('[' :: t)
                    = '[' :: ds ++ replaceDigitsGo repl (some []) t := by
                  simp [replaceDigitsGo, hd]
                rw [h1, ih (some [])]
                simp
              · have h1 : replaceDigitsGo repl (some ds) (c :: t)
                    = '[' :: ds ++ c :: replaceDigitsGo repl none t := by
                  simp [replaceDigitsGo, hd, hb, hob]
                rw [h1, ih none]
                simp

/-- Elements produced by `dedupAcc` avoid the seen accumulator and are
pairwise distinct. -/
theorem dedupAcc_spec :
    ∀ (l seen : List String),
      (∀ x ∈ dedupAcc seen l, x ∉ seen) ∧ (dedupAcc seen l).Nodup := by
  intro l
  induction l with
  | nil => intro seen; simp [dedupAcc]
  | cons x t ih =>
      intro seen
      by_cases hx : x ∈ seen
      · simpa [dedupAcc, hx] using ih seen
      · have h2 := ih (x :: seen)
        refine ⟨?_, ?_⟩
        · intro y hy
          simp only [dedupAcc, if_neg hx] at hy
          rcases List.mem_cons.mp hy with rfl | hy'
          · exact hx
          · intro hys
            exact (h2.1 y hy') (List.mem_cons_of_mem x hys)
        · simp only [dedupAcc, if_neg hx]
          refine List.Pairwise.cons ?_ h2.2
          intro y hy hxy
          exact (h2.1 y hy) (by rw [← hxy]; exact List.mem_cons_self x seen)

/-- A deduplicated-id list filtered by a predicate that holds only at one of
its members collapses to that single member. -/
theorem filter_eq_singleton_of {l : List String} {a : String} {p : String → Bool}
    (hn : l.Nodup) (ha : a ∈ l) (hpa : p a = true)
    (ho : ∀ b ∈ l, b ≠ a → p b = false) :
    l.filter p = [a] := by
  induction l with
  | nil => cases ha
  | cons h t ih =>
      have hht := List.nodup_cons.mp hn
      rcases List.mem_cons.mp ha with hah | hat
      · subst hah
        have htnil : t.filter p = [] := by
          rw [List.filter_eq_nil_iff]
          intro b hb
          have hba : b ≠ a := fun hbh => hht.1 (hbh ▸ hb)
          simp [ho b (List.mem_cons_of_mem a hb) hba]
        simp [List.filter_cons, hpa, htnil]
      · have hha : h ≠ a := fun hha => hht.1 (hha ▸ hat)
        have hph : p h = false := ho h (List.mem_cons_self h t) hha
        rw [List.filter_cons_of_neg (by simp [hph])]
        exact ih hht.2 hat fun b hb hba => ho b (List.mem_cons_of_mem h hb) hba

/-- One `Map` insertion preserves distinctness of the keys. -/
theorem jsMapUpsert_nodup {α β : Type} [BEq β] [LawfulBEq β] (f : α → β)
    (acc : List α) (a : α) (hacc : (acc.map f).Nodup) :
    ((jsMapUpsert f acc a).map f).Nodup := by
  unfold jsMapUpsert
  by_cases hc : acc.any (fun b => f b == f a) = true
  · rw [if_pos hc, List.map_map]
    have : acc.map (f ∘ fun b => if f b == f a then a else b) = acc.map f := by
      apply List.map_congr_left
      intro b _
      by_cases hbe : f b == f a
      · simp only [Function.comp, if_pos hbe]
        exact (eq_of_beq hbe).symm
      · simp only [Function.comp, if_neg hbe]
    rw [this]; exact hacc
  · rw [if_neg hc, List.map_append]
    rw [List.nodup_append]
    refine ⟨hacc, List.nodup_singleton _, ?_⟩
    intro x hx hxa
    rcases List.mem_map.mp hx with ⟨b, hb, rfl⟩
    have hfa : f b = f a := by simpa using hxa
    have hcf : acc.any (fun b => f b == f a) = false := by
      cases hval : acc.any (fun b => f b == f a)
      · rfl
      · exact absurd hval hc
    have := List.any_eq_false.mp hcf b hb
    exact this (by simp [hfa])

/-- The keys of the URL-deduplication `Map` are pairwise distinct. -/
theorem jsMapDedupBy_nodup {α β : Type} [BEq β] [LawfulBEq β] (f : α → β) :
    ∀ (l acc : List α), (acc.map f).Nodup → (((l.foldl (jsMapUpsert f) acc)).map f).Nodup := by
  intro l
  induction l with
  | nil => intro acc h; simpa using h
  | cons a t ih =>
      intro acc h
      exact ih (jsMapUpsert f acc a) (jsMapUpsert_nodup f acc a h)

/-- The final search output has pairwise-distinct URLs. -/
theorem finishSearch_links_nodup (all : List SearchResult) :
    ((finishSearch all).map fun r => r.link).Nodup := by
  unfold finishSearch jsMapDedupBy
  rw [List.map_take]
  exact (List.take_sublist _ _).nodup (jsMapDedupBy_nodup (fun r => r.link) all [] (by simp))

/-- The branch selector `if 0 < l.length then l else []` is the identity. -/
theorem ifLenPos_eq (l : List SearchResult) : (if 0 < l.length then l else []) = l := by
  cases l <;> simp

/-- When no hit is dropped, the formatted ids starting at offset `i` are the
consecutive numbers from `i + 1`. -/
theorem quickFormat_ids_all_kept :
    ∀ (hits : List SearchResult) (i : Nat),
      (∀ x ∈ hits, x.link ≠ "" ∧ x.title ≠ "") →
      ((mapIdxFrom mkQuickSource i hits).filter keepSrc).map (fun s => s.id)
        = (List.range hits.length).map fun k => some (toString (i + k + 1)) := by
  intro hits
  induction hits with
  | nil => intro i _; simp [mapIdxFrom]
  | cons x t ih =>
      intro i h
      have hx := h x (List.mem_cons_self x t)
      have hk : keepSrc (mkQuickSource i x) = true := by
        simp [keepSrc, mkQuickSource, bne_iff_ne, hx.1, hx.2]
      have ht : ∀ y ∈ t, y.link ≠ "" ∧ y.title ≠ "" :=
        fun y hy => h y (List.mem_cons_of_mem x hy)
      simp only [mapIdxFrom]
      rw [List.filter_cons_of_pos hk, List.map_cons]
      rw [ih (i + 1) ht, List.length_cons, List.range_succ_eq_map]
      simp only [List.map_cons, List.map_map]
      congr 1
      apply List.map_congr_left
      intro k _
      simp only [Function.comp]
      congr 2
      omega

/-! ### Claim theorems -/

/-- C1: for every report text whose citation markers are exactly `[1]`,
`[2, 4]` and `[6-8]`, resolved against the ten-source list with ids `"1"`
through `"10"`, the range-expanding citation resolution yields the distinct
id set 1, 2, 4, 6, 7, 8 (each one a known source id), the total
`citationsUsed` metric (comma lists and hyphen ranges expanded to their
members) equals 6, and `sourceUsagePercent` equals round(6/10*100) = 60. -/
theorem c1_citation_roundtrip (content : String)
    (h : extractAnyMarkers content = ["1", "2, 4", "6-8"]) :
    resolvedIdSet content = ["1", "2", "4", "6", "7", "8"]
    ∧ citationsUsedTotal content = 6
    ∧ sourceUsagePercentJS (citationsUsedTotal content) sources10.length = some 60
    ∧ ∀ i ∈ resolvedIdSet content, sources10.any (fun s => optIdEq s.id i) = true := by
  unfold resolvedIdSet citationsUsedTotal
  rw [h]
  exact ⟨by decide, by decide, by decide, by decide⟩

/-- Witness for C1 at a concrete report text. -/
theorem c1_witness :
    resolvedIdSet c1Content = ["1", "2", "4", "6", "7", "8"]
    ∧ citationsUsedTotal c1Content = 6
    ∧ sourceUsagePercentJS (citationsUsedTotal c1Content) sources10.length = some 60
    ∧ ∀ i ∈ resolvedIdSet c1Content, sources10.any (fun s => optIdEq s.id i) = true :=
  c1_citation_roundtrip c1Content (by decide)

/-- C2: for report text citing the unknown id 99, the strict policy of the
user-driven edit endpoint rejects the edit with an invalid-citation error
listing exactly `["99"]` (returning no edited content), while the lenient
policy of initial-generation rendering leaves the marker `[99]` as the
literal text, not a hyperlink. -/
theorem c2_strict_and_lenient (edited : String) (existing : List CipherSource)
    (h1 : "99" ∈ cipherCitationIds edited)
    (h2 : ∀ c ∈ cipherCitationIds edited, c ≠ "99" →
      existing.any (fun es => es.id == c) = true)
    (h3 : existing.any (fun es => es.id == "99") = false) :
    processEdit edited existing = .invalid ["99"]
    ∧ formatCitationsPass sources10 "[99]" = "[99]" := by
  constructor
  · have hnodup : (cipherCitationIds edited).Nodup :=
      (dedupAcc_spec (extractDigitMarkers edited) []).2
    have hfilter : (cipherCitationIds edited).filter
        (fun c => !(existing.any fun es => es.id == c)) = ["99"] := by
      refine filter_eq_singleton_of hnodup h1 (by simp [h3]) ?_
      intro b hb hba
      simp [h2 b hb hba]
    unfold processEdit extractSources
    dsimp only
    rw [List.filter_map]
    have hcomp : ((fun s => !(existing.any fun es => es.id == s.id)) ∘
        fun id => (⟨id, "", ""⟩ : CipherSource))
        = fun c => !(existing.any fun es => es.id == c) := rfl
    rw [hcomp, hfilter]
    rfl
  · decide

/-- Witness for C2 at a concrete edit and source set. -/
theorem c2_witness :
    processEdit editedEx existingEx = .invalid ["99"]
    ∧ formatCitationsPass sources10 "[99]" = "[99]" :=
  c2_strict_and_lenient editedEx existingEx (by decide) (by decide) (by decide)

/-- C3: in deep-research mode, `formatContentToHTML` runs on the raw Serper
source list, whose records carry no `id` field (ids are attached to the
response's sources array only afterwards), so the citation-replacement step
never finds a matching source: for every deep-mode invocation the step is
the identity and every marker `[n]` stays literal bracketed text. -/
theorem c3_deep_markers_stay_literal (content : String) (srcs : List SerperSource) :
    deepCitationStep srcs content = content := by
  have hfind : ∀ d : String,
      (srcs.map serperView).find? (fun s => optIdEq s.id d) = none := by
    intro d
    rw [List.find?_eq_none]
    intro s hs
    rcases List.mem_map.mp hs with ⟨x, _, rfl⟩
    simp [serperView, optIdEq]
  have hrepl : ∀ ds : List Char,
      citeReplacement (srcs.map serperView) ⟨ds⟩ = ⟨'[' :: (ds ++ [']'])⟩ := by
    intro ds
    unfold citeReplacement
    rw [hfind]
    rfl
  unfold deepCitationStep formatCitationsPass jsReplaceDigitCitations
  rw [replaceDigitsGo_flush _ hrepl]
  rfl

/-- C4: the deep-mode section chain builds all five prompts before the
generation loop, interpolating `previousContent` while it is still the empty
string, so even when the introduction chunk succeeds (here with a 200-word
section containing the token `XAMARKER`), the literature-review prompt
actually sent to the model does not contain the predecessor's generated
text — contradicting the specified context chaining. -/
theorem c4_section_prompts_lack_previous_text :
    200 ≤ wordCountJS introEx
    ∧ strIncludes introEx "XAMARKER" = true
    ∧ (generateDeepResearch llmEx "climate" []).1.getD 0 ""
      = (deepPrompts "climate" []).getD 0 ""
    ∧ (generateDeepResearch llmEx "climate" []).1.getD 1 ""
      = (deepPrompts "climate" []).getD 1 ""
    ∧ strIncludes ((deepPrompts "climate" []).getD 1 "") "XAMARKER" = false := by
  decide

/-- C5: a full pruned window makes `checkRateLimit` throw the wait-time
message, but the quick-mode pipeline surfaces that denial with HTTP status
500, not 429: `searchWithPriority`'s catch replaces the message with the
generic search-failure text, and even the original message fails the
case-sensitive `includes('rate limit')` check of the status mapping. -/
theorem c5_rate_limit_not_surfaced_as_429 :
    checkRateLimit 100000 rlFullState
      = .limited rlMsg10 ⟨[50000, 51000, 52000, 53000, 54000], 90000⟩
    ∧ statusCodeFor rlMsg10 = 500
    ∧ searchWithPriority (.error rlMsg10) (.ok []) (.ok []) = .error searchFailMsg
    ∧ statusCodeFor searchFailMsg = 500 := by
  decide

/-- Counterexample to C6: a failure of the academic tier alone is fatal even
though the general tier has twelve results — the aggregator returns the
generic search error and no source list. -/
theorem c6_counterexample :
    searchWithPriority (.error "Network error") (.ok hits12) (.ok []) = .error searchFailMsg
    ∧ ¬ ∃ out, searchWithPriority (.error "Network error") (.ok hits12) (.ok [])
        = .ok out := by
  refine ⟨rfl, ?_⟩
  rintro ⟨out, hout⟩
  rw [show searchWithPriority (.error "Network error") (.ok hits12) (.ok [])
      = .error searchFailMsg from rfl] at hout
  exact Except.noConfusion hout

/-- C6 (amended): a provider failure at any attempted search tier is fatal —
the whole tier sequence sits inside one `try`, so the aggregator fails with
the generic search-failure error as soon as any attempted tier's call
throws; later tiers are never consulted as a fallback. -/
theorem c6_tier_failure_is_fatal (e : String) (t2 t3 : Except String (List SearchResult))
    (r1 r2 : List SearchResult)
    (h1 : r1.length < quickResearchMinSources)
    (h2 : r1.length + r2.length < quickResearchMinSources) :
    searchWithPriority (.error e) t2 t3 = .error searchFailMsg
    ∧ searchWithPriority (.ok r1) (.error e) t3 = .error searchFailMsg
    ∧ searchWithPriority (.ok r1) (.ok r2) (.error e) = .error searchFailMsg := by
  refine ⟨rfl, ?_, ?_⟩
  · unfold searchWithPriority
    dsimp only
    rw [ifLenPos_eq r1, if_pos h1]
  · unfold searchWithPriority
    dsimp only
    rw [ifLenPos_eq r1, if_pos h1]
    have hall2 : (if 0 < r2.length then r1 ++ r2 else r1).length < quickResearchMinSources := by
      split
      · rw [List.length_append]; omega
      · exact h1
    rw [if_pos hall2]

/-- Witness for C6 (amended) at concrete tier outcomes. -/
theorem c6_witness :
    searchWithPriority (.error "Network error") (.ok []) (.ok []) = .error searchFailMsg
    ∧ searchWithPriority (.ok []) (.error "Network error") (.ok []) = .error searchFailMsg
    ∧ searchWithPriority (.ok []) (.ok []) (.error "Network error") = .error searchFailMsg :=
  c6_tier_failure_is_fatal "Network error" (.ok []) (.ok []) [] [] (by decide) (by decide)

/-- Counterexample to C7: a 480-word report (the claim's own example, below
the claimed 500-word floor) fails in a single attempt with the generic
900-word-floor message, which does not mention the claimed minimum 500 at
all. -/
theorem c7_counterexample :
    quickGenerateValidate c480
      = .error "Generated content too short (minimum 900 words required)"
    ∧ strIncludes "Generated content too short (minimum 900 words required)" "500"
      = false := by
  decide

/-- C7 (amended): quick-mode generation validates a single attempt with no
retry loop; any non-blank report of at least 500 characters but fewer than
900 words fails immediately with the generic 900-word-floor error, and no
result is returned. -/
theorem c7_quick_floor_is_900 (content : String)
    (h1 : 500 ≤ content.length)
    (h2 : trimChars content.data ≠ [])
    (h3 : wordCountJS content < 900) :
    quickGenerateValidate content
      = .error "Generated content too short (minimum 900 words required)" := by
  unfold quickGenerateValidate
  have hne : ¬ content = "" := by
    intro hc
    rw [hc] at h1
    exact absurd h1 (by decide)
  rw [if_neg hne, if_neg (by omega), if_neg h2, if_pos h3]

/-- Witness for C7 (amended) at a 600-word report. -/
theorem c7_witness :
    quickGenerateValidate c600
      = .error "Generated content too short (minimum 900 words required)" :=
  c7_quick_floor_is_900 c600 (by decide) (by decide) (by decide)

/-- Counterexample to C8: dropping the middle hit (missing title) leaves the
kept sources with ids `"1"` and `"3"` — not the gap-free sequence
`"1"`, `"2"` the claim requires. -/
theorem c8_counterexample :
    (quickFormatSources hitsDropEx).map (fun s => s.id) = [some "1", some "3"]
    ∧ (quickFormatSources hitsDropEx).map (fun s => s.id)
      ≠ (List.range (quickFormatSources hitsDropEx).length).map
          (fun i => some (toString (i + 1))) := by
  decide

/-- C8 (amended): ids are assigned from the raw input position before the
title/URL filter runs, so kept sources keep their original-position ids
(gaps appear when hits are dropped); the ids are the gap-free sequence
`"1" .. "k"` exactly in the case where no hit is dropped. -/
theorem c8_ids_sequential_when_nothing_dropped (hits : List SearchResult)
    (h : ∀ x ∈ hits, x.link ≠ "" ∧ x.title ≠ "") :
    (quickFormatSources hits).map (fun s => s.id)
      = (List.range hits.length).map fun i => some (toString (i + 1)) := by
  unfold quickFormatSources
  rw [quickFormat_ids_all_kept hits 0 h]
  apply List.map_congr_left
  intro k _
  congr 2
  omega

/-- Witness for C8 (amended) at two well-formed hits. -/
theorem c8_witness :
    (quickFormatSources hitsKeepEx).map (fun s => s.id)
      = (List.range hitsKeepEx.length).map fun i => some (toString (i + 1)) :=
  c8_ids_sequential_when_nothing_dropped hitsKeepEx (by decide)

/-- Counterexample to C9: computing the edit metadata against an empty
source list yields a non-finite `sourceUsagePercent` (the JavaScript `0/0`,
modelled as `none`), not 0. -/
theorem c9_counterexample :
    processEdit "No citations here." [] = .ok "No citations here." 0 none
    ∧ (none : Option Nat) ≠ some 0 := by
  decide

/-- C9 (amended): there is no zero-source guard — for every citation count,
the usage percentage computed against an empty source list is the non-finite
result of a division by zero (`NaN` or `Infinity`, never the number 0),
though no exception is raised. -/
theorem c9_zero_sources_percent_not_finite :
    ∀ used : Nat, sourceUsagePercentJS used 0 = none :=
  fun _ => rfl

/-- C10: whatever the tier outcomes, a successful aggregation output
contains each URL string at most once (deduplication is by exact URL string
equality, so URLs differing only in query-parameter casing are distinct
entries, each itself appearing once). -/
theorem c10_output_urls_unique (t1 t2 t3 : Except String (List SearchResult))
    (out : List SearchResult)
    (h : searchWithPriority t1 t2 t3 = .ok out) :
    (out.map fun r => r.link).Nodup := by
  unfold searchWithPriority at h
  rcases t1 with e1 | r1
  · dsimp only at h
    exact absurd h (by simp)
  · rcases t2 with e2 | r2 <;> rcases t3 with e3 | r3 <;> dsimp only at h <;>
      (try split at h) <;> (try split at h) <;> (try split at h) <;>
      (try split at h) <;> (try split at h)
    all_goals
      first
        | (have h' := Except.ok.inj h
           rw [← h']
           exact finishSearch_links_nodup _)
        | exact absurd h (by simp)

/-- Witness for C10 at a hit list with an exact duplicate URL and a pair of
URLs differing only in query-parameter casing. -/
theorem c10_witness : (dupHitsOut.map fun r => r.link).Nodup :=
  c10_output_urls_unique (.ok dupHits) (.ok []) (.ok []) dupHitsOut (by decide)
